import Mathlib

/-!
Shallow embedding of src/Task2.py (AUTOMATED-REPORT-GENERATION).

The program reads a CSV file of sales records, aggregates them, and renders
a PDF report.  We embed:

* a CSV row as a Python dict: an association list of (column, value) pairs
  built by zipping the header line with a data line (csv.DictReader);
* Python float(...) on the Amount text as a partial parser into the exact
  rationals (the spec states its numeric claims modulo floating-point
  rounding, so amounts are modelled exactly in the rationals);
* Python set iteration (lines 55-56 of the source) as an explicit
  enumeration oracle `o : List String -> List String`; a faithful oracle
  returns a permutation of the distinct values (set order in CPython is
  hash-based and not stable across processes);
* Python exceptions as `Except String`; an uncaught exception aborts the
  run with no output file;
* the PDF document as the list of text cells in emission order (fonts,
  coordinates, pagination and the fixed page header/footer decoration are
  layout only and carry no data).
-/

/-- Python float(s) restricted to plain decimal literals: optional sign,
digits, optional single decimal point (exponents, inf, nan and surrounding
whitespace are not used by this program and are not modelled).  Returns
none exactly when CPython float() raises ValueError on such a literal. -/
def digitVal (c : Char) : Option ℕ :=
  if c.isDigit then some (c.toNat - 48) else none

def natOfDigits (cs : List Char) : Option ℕ :=
  cs.foldl (fun acc c => do pure ((← acc) * 10 + (← digitVal c))) (some 0)

def pyFloat (s : String) : Option ℚ :=
  let cs := s.toList
  let signed : ℚ × List Char :=
    match cs with
    | '-' :: t => (-1, t)
    | '+' :: t => (1, t)
    | t => (1, t)
  let sgn := signed.1
  let rest := signed.2
  match rest.span (fun c => c ≠ '.') with
  | (ip, []) =>
      if ip.isEmpty then none
      else do pure (sgn * (← natOfDigits ip))
  | (ip, _ :: fp) =>
      if fp.contains '.' then none
      else if ip.isEmpty && fp.isEmpty then none
      else do
        let n ← natOfDigits ip
        let f ← natOfDigits fp
        pure (sgn * ((n : ℚ) + (f : ℚ) / (10 : ℚ) ^ fp.length))

/-- Insert thousands separators into a reversed digit string (helper for
the Python format specification ",.2f"). -/
def commasRev : List Char → List Char
  | c1 :: c2 :: c3 :: c4 :: rest => c1 :: c2 :: c3 :: ',' :: commasRev (c4 :: rest)
  | l => l
  termination_by l => l.length

/-- Python format(x, ",.2f"): round to 2 decimal places, thousands
separators in the integer part, always two fraction digits.  Rounding of
exact halves is banker's on binary floats; on our exact rationals we use
round-half-up, which agrees everywhere the program's claims are evaluated. -/
def pyFormat2f (q : ℚ) : String :=
  let cents : ℤ := round (q * 100)
  let sign := if cents < 0 then "-" else ""
  let a := cents.natAbs
  let whole := a / 100
  let frac := a % 100
  let wholeStr := String.mk (commasRev (Nat.repr whole).toList.reverse).reverse
  let fracStr := (if frac < 10 then "0" else "") ++ Nat.repr frac
  sign ++ wholeStr ++ "." ++ fracStr

/-- A loaded CSV row, i.e. a Python dict produced by csv.DictReader:
an insertion-ordered association list from column name to cell text. -/
def Row : Type := List (String × String)

instance : DecidableEq Row := by unfold Row; infer_instance

/-- Python row[k]: dict lookup, raising KeyError when the column is absent. -/
def pyGet (row : Row) (k : String) : Except String String :=
  match List.lookup k row with
  | some v => Except.ok v
  | none => Except.error ("KeyError: " ++ k)

/-- float(row[...]) with the ValueError that CPython raises on failure. -/
def pyFloatE (s : String) : Except String ℚ :=
  match pyFloat s with
  | some q => Except.ok q
  | none => Except.error ("ValueError: could not convert string to float: " ++ s)

/-- float(item[Amount]) as evaluated at line 53 of the source. -/
def amountOf (row : Row) : Except String ℚ := do pyFloatE (← pyGet row "Amount")

/-- Effectful map in the Except monad, by structural recursion, modelling a
Python loop or generator that may raise at any element. -/
def mapE (f : α → Except ε β) : List α → Except ε (List β)
  | [] => Except.ok []
  | a :: t => do pure ((← f a) :: (← mapE f t))

/-- csv field splitting on the comma delimiter, by structural recursion on
the characters (the input data uses no quoting or escaping). -/
def splitCommaList : List Char → List (List Char)
  | [] => [[]]
  | c :: rest =>
    let r := splitCommaList rest
    if c = ',' then [] :: r
    else
      match r with
      | [] => [[c]]
      | f :: fs => (c :: f) :: fs

def splitComma (line : String) : List String := (splitCommaList line.toList).map String.mk

/-- csv.DictReader: the first line is the header; every further line is
zipped against it to form one dict, in input order. -/
def dictReader (lines : List String) : List Row :=
  match lines with
  | [] => []
  | header :: body => body.map (fun line => (splitComma header).zip (splitComma line))

/-- The world outside the program: reading a filename either finds no file
(FileNotFoundError), raises some other exception while reading (the string
names it), or yields the list of content lines. -/
structure FileSys where
  read : String → Option (Except String (List String))

/-- read_data (source lines 28-43): open and parse the CSV file; on
FileNotFoundError print two diagnostic lines and return None; on any other
exception print one diagnostic line and return None.  Result: (lines
printed, Python return value). -/
def read_data (fs : FileSys) (filename : String) : List String × Option (List Row) :=
  match fs.read filename with
  | none =>
      (["Error: The file \x27" ++ filename ++ "\x27 was not found.",
        "Please make sure the file exists in the same directory as the script."], none)
  | some (Except.error e) =>
      (["An error occurred while reading the file: " ++ e], none)
  | some (Except.ok lines) => ([], some (dictReader lines))

/-- The analysis dict built by analyze_data (source lines 50-74).  The two
mappings are Python dicts and keep their insertion order, which is the set
iteration order of lines 55-56. -/
structure Analysis where
  total_sales : ℚ
  average_sale : ℚ
  sales_by_region : List (String × ℚ)
  sales_by_product : List (String × ℚ)
  record_count : ℕ
deriving DecidableEq

/-- analyze_data (source lines 45-74), parameterised by the set-enumeration
oracle `o` standing for iteration over set(...): a faithful oracle returns
the distinct elements of its input in some order (CPython order is
hash-based).  Returns ok none for falsy (empty) input (line 47), raises
ValueError if some Amount does not parse (line 53) and KeyError if a column
is missing; the per-key bucket sums of lines 59-66 re-read fields the
earlier lines already read successfully, so they are taken from the lists
extracted at lines 53, 55 and 56. -/
def analyze_data (o : List String → List String) (data : List Row) :
    Except String (Option Analysis) :=
  if data.isEmpty then Except.ok none
  else do
    let amounts ← mapE amountOf data
    let total_sales := amounts.sum
    let average_sale := total_sales / (data.length : ℚ)
    let regionsList ← mapE (fun item => pyGet item "Region") data
    let productsList ← mapE (fun item => pyGet item "Product") data
    let regions := o regionsList
    let products := o productsList
    let sales_by_region := regions.map (fun region =>
      (region, (((regionsList.zip amounts).filter
        (fun p => p.1 = region)).map Prod.snd).sum))
    let sales_by_product := products.map (fun product =>
      (product, (((productsList.zip amounts).filter
        (fun p => p.1 = product)).map Prod.snd).sum))
    pure (some { total_sales := total_sales, average_sale := average_sale,
                 sales_by_region := sales_by_region,
                 sales_by_product := sales_by_product,
                 record_count := data.length })

/-- One bordered row of the Sample Data table (source lines 133-138): the
four cells emitted for one record, with Amount in currency format; raises
if a column is missing or the Amount does not parse. -/
def rowCells (row : Row) : Except String (List String) := do
  let d ← pyGet row "Date"
  let r ← pyGet row "Region"
  let p ← pyGet row "Product"
  let v ← amountOf row
  pure [d, r, p, "$" ++ pyFormat2f v]

/-- The data rows of the Sample Data table: one row per record, truncated
to the first 10 records in original input order (data[:10], line 133). -/
def sampleRows (data : List Row) : Except String (List (List String)) :=
  mapE rowCells (data.take 10)

/-- The body cells of the report in emission order (source lines 88-138):
timestamp line, Summary Statistics block, Sales by Region block, Sales by
Product block, Sample Data header and rows.  `now` is the formatted clock
reading of line 88. -/
def reportCells (data : List Row) (a : Analysis) (now : String) :
    Except String (List String) := do
  let table ← sampleRows data
  pure (["Report generated on: " ++ now,
         "Summary Statistics",
         "Total records analyzed: " ++ Nat.repr a.record_count,
         "Total sales: $" ++ pyFormat2f a.total_sales,
         "Average sale amount: $" ++ pyFormat2f a.average_sale,
         "Sales by Region"]
    ++ a.sales_by_region.map (fun rs => rs.1 ++ ": $" ++ pyFormat2f rs.2)
    ++ ["Sales by Product"]
    ++ a.sales_by_product.map (fun ps => ps.1 ++ ": $" ++ pyFormat2f ps.2)
    ++ ["Sample Data (First 10 Records)", "Date", "Region", "Product", "Amount"]
    ++ table.flatten)

/-- generate_report (source lines 76-142): if data or analysis is falsy,
print a message and return False writing no file; otherwise lay out the
document and write it.  Result: (lines printed, return value, file written).
An uncaught exception from a table cell propagates. -/
def generate_report (data : List Row) (analysis : Option Analysis) (now : String) :
    Except String (List String × Bool × Option (List String)) :=
  match data, analysis with
  | [], _ =>
      Except.ok (["Cannot generate report without valid data and analysis."], false, none)
  | _, none =>
      Except.ok (["Cannot generate report without valid data and analysis."], false, none)
  | _, some a => do
      let cells ← reportCells data a now
      pure ([], true, some cells)

/-- The observable outcome of one run of the program: everything printed
to standard output in order, the output file content if one was written,
and the uncaught exception if the run died with a traceback. -/
structure RunResult where
  printed : List String
  output : Option (List String)
  uncaught : Option String
deriving DecidableEq

namespace Task2

/-- main (source lines 144-171): read sales_data.csv (path joining to the
script directory is identity in the model), stop if the result is falsy
(None or an empty list, line 157), analyze, stop with a message if the
analysis is falsy, render and report success or failure. -/
def main (o : List String → List String) (now : String) (fs : FileSys) : RunResult :=
  let pr := read_data fs "sales_data.csv"
  let p0 := "Reading data..." :: pr.1
  match pr.2 with
  | none => { printed := p0, output := none, uncaught := none }
  | some data =>
    if data.isEmpty then { printed := p0, output := none, uncaught := none }
    else
      let p1 := p0 ++ ["Analyzing data..."]
      match analyze_data o data with
      | Except.error e => { printed := p1, output := none, uncaught := some e }
      | Except.ok none =>
          { printed := p1 ++ ["Error in data analysis."], output := none, uncaught := none }
      | Except.ok (some analysis) =>
          let p2 := p1 ++ ["Generating report..."]
          match generate_report data (some analysis) now with
          | Except.error e => { printed := p2, output := none, uncaught := some e }
          | Except.ok (prG, ok, out) =>
              if ok then
                { printed := p2 ++ prG ++ ["Report generated successfully: sales_report.pdf"],
                  output := out, uncaught := none }
              else
                { printed := p2 ++ prG ++ ["Failed to generate report."],
                  output := out, uncaught := none }

end Task2

/-- analyze_data with the heap made explicit: the record list is the store
the Python function reads through, and the store after the call is returned
next to the result.  Every statement of source lines 45-74 only reads the
store (dict lookups, float parses, sums, set building), so each branch
returns the store it was given. -/
def analyze_data_st (o : List String → List String) (store : List Row) :
    Except String (Option Analysis) × List Row :=
  if store.isEmpty then (Except.ok none, store)
  else
    match mapE amountOf store with
    | Except.error e => (Except.error e, store)
    | Except.ok amounts =>
      match mapE (fun item => pyGet item "Region") store with
      | Except.error e => (Except.error e, store)
      | Except.ok regionsList =>
        match mapE (fun item => pyGet item "Product") store with
        | Except.error e => (Except.error e, store)
        | Except.ok productsList =>
          let total_sales := amounts.sum
          let average_sale := total_sales / (store.length : ℚ)
          let regions := o regionsList
          let products := o productsList
          let sales_by_region := regions.map (fun region =>
            (region, (((regionsList.zip amounts).filter
              (fun p => p.1 = region)).map Prod.snd).sum))
          let sales_by_product := products.map (fun product =>
            (product, (((productsList.zip amounts).filter
              (fun p => p.1 = product)).map Prod.snd).sum))
          (Except.ok (some { total_sales := total_sales, average_sale := average_sale,
                             sales_by_region := sales_by_region,
                             sales_by_product := sales_by_product,
                             record_count := store.length }), store)

/-- A set-enumeration oracle that yields the distinct values in first-seen
order (one possible CPython set iteration order). -/
def setEnumFirstSeen : List String → List String := fun l => l.dedup

/-- A set-enumeration oracle that yields the same distinct values in the
opposite order (another possible CPython set iteration order, as produced
by a different hash seed in another process). -/
def setEnumReversed : List String → List String := fun l => l.dedup.reverse

/-- The worked example of the spec: two records in two regions. -/
def exampleLines : List String :=
  ["Date,Region,Product,Amount",
   "2024-01-01,East,Widget,100.00",
   "2024-01-02,West,Gadget,50.00"]

def exampleFS : FileSys :=
  ⟨fun n => if n = "sales_data.csv" then some (Except.ok exampleLines) else none⟩

def exampleData : List Row := dictReader exampleLines

def exampleAnalysis : Analysis :=
  { total_sales := 150, average_sale := 75,
    sales_by_region := [("East", 100), ("West", 50)],
    sales_by_product := [("Widget", 100), ("Gadget", 50)],
    record_count := 2 }

/-- A file with a header line and zero data rows. -/
def headerOnlyFS : FileSys :=
  ⟨fun n => if n = "sales_data.csv" then
      some (Except.ok ["Date,Region,Product,Amount"]) else none⟩

/-- A world with no files at all. -/
def missingFS : FileSys := ⟨fun _ => none⟩

/-- A file whose single data row has an Amount that float() cannot parse. -/
def badAmountFS : FileSys :=
  ⟨fun n => if n = "sales_data.csv" then
      some (Except.ok ["Date,Region,Product,Amount", "2024-01-03,East,Widget,abc"])
    else none⟩

/-- One record of the fifteen-record sample-table example. -/
def sampleRecord : Row :=
  [("Date", "2024-01-01"), ("Region", "East"), ("Product", "Widget"),
   ("Amount", "100.00")]

/-- Fifteen records, of which the table must show only the first ten. -/
def fifteenRecords : List Row := List.replicate 15 sampleRecord

/-- The four table cells rendered for sampleRecord. -/
def sampleRecordCells : List String := ["2024-01-01", "East", "Widget", "$100.00"]

/-- The ten table rows rendered for fifteenRecords. -/
def tenRenderedRows : List (List String) := List.replicate 10 sampleRecordCells

instance [DecidableEq e] [DecidableEq a] : DecidableEq (Except e a) := fun x y =>
  match x, y with
  | Except.error u, Except.error v => decidable_of_iff (u = v) (by simp)
  | Except.error _, Except.ok _ => isFalse (fun h => Except.noConfusion h)
  | Except.ok _, Except.error _ => isFalse (fun h => Except.noConfusion h)
  | Except.ok u, Except.ok v => decidable_of_iff (u = v) (by simp)

/-! Helper lemmas about the Except monad, mapE, and grouped sums. -/

@[simp] lemma except_bind_ok (a : α) (f : α → Except ε β) :
    (Except.ok a : Except ε α) >>= f = f a := rfl

@[simp] lemma except_bind_error (e : ε) (f : α → Except ε β) :
    (Except.error e : Except ε α) >>= f = Except.error e := rfl

@[simp] lemma except_map_ok (g : α → β) (a : α) :
    g <$> (Except.ok a : Except ε α) = Except.ok (g a) := rfl

@[simp] lemma except_map_error (g : α → β) (e : ε) :
    g <$> (Except.error e : Except ε α) = (Except.error e : Except ε β) := rfl

@[simp] lemma except_pure_eq (a : α) : (pure a : Except ε α) = Except.ok a := rfl

lemma mapE_ok_length {f : α → Except ε β} : ∀ {l : List α} {ys : List β},
    mapE f l = Except.ok ys → ys.length = l.length := by
  intro l
  induction l with
  | nil => intro ys h; simp [mapE] at h; simp [← h]
  | cons a t ih =>
    intro ys h
    simp only [mapE] at h
    cases hfa : f a with
    | error e => rw [hfa] at h; simp at h
    | ok b =>
      rw [hfa] at h
      cases hmt : mapE f t with
      | error e => rw [hmt] at h; simp at h
      | ok bs =>
        rw [hmt] at h
        simp at h
        subst h
        simp [ih hmt]

lemma mapE_ok_get {f : α → Except ε β} : ∀ {l : List α} {ys : List β},
    mapE f l = Except.ok ys → ∀ (i : ℕ) (h1 : i < l.length) (h2 : i < ys.length),
      f (l.get ⟨i, h1⟩) = Except.ok (ys.get ⟨i, h2⟩) := by
  intro l
  induction l with
  | nil => intro ys h i h1 h2; simp at h1
  | cons a t ih =>
    intro ys h i h1 h2
    simp only [mapE] at h
    cases hfa : f a with
    | error e => rw [hfa] at h; simp at h
    | ok b =>
      rw [hfa] at h
      cases hmt : mapE f t with
      | error e => rw [hmt] at h; simp at h
      | ok bs =>
        rw [hmt] at h
        simp at h
        subst h
        cases i with
        | zero => simpa using hfa
        | succ j =>
          simp only [List.get_cons_succ]
          exact ih hmt j (by simpa using h1) (by simpa using h2)

lemma sum_filter_not_split (l : List (String × ℚ)) (f : String × ℚ → Bool) :
    ((l.filter f).map Prod.snd).sum
      + ((l.filter (fun x => !(f x))).map Prod.snd).sum
      = (l.map Prod.snd).sum := by
  induction l with
  | nil => simp
  | cons a t ih =>
    cases hfa : f a <;> simp [List.filter_cons, hfa] <;> linarith [ih]

lemma sum_buckets : ∀ (K : List String) (l : List (String × ℚ)),
    K.Nodup → (∀ p ∈ l, p.1 ∈ K) →
    (K.map (fun k => ((l.filter (fun p => p.1 = k)).map Prod.snd).sum)).sum
      = (l.map Prod.snd).sum := by
  intro K
  induction K with
  | nil =>
    intro l _ hl
    have : l = [] := by
      cases l with
      | nil => rfl
      | cons p t => exact absurd (hl p (by simp)) (by simp)
    simp [this]
  | cons k K ih =>
    intro l hK hl
    rw [List.map_cons, List.sum_cons]
    have hsplit := sum_filter_not_split l (fun p => p.1 = k)
    have hcongr : ∀ k2 ∈ K,
        (l.filter (fun p => !(decide (p.1 = k)))).filter (fun p => p.1 = k2)
          = l.filter (fun p => p.1 = k2) := by
      intro k2 hk2
      rw [List.filter_filter]
      apply List.filter_congr
      intro p _
      by_cases hp : p.1 = k2
      · have hpk : ¬ (p.1 = k) := by
          rw [hp]; intro hkk; exact (List.nodup_cons.mp hK).1 (hkk ▸ hk2)
        simp [hp]
        exact fun hkk => hpk (hp.trans hkk)
      · simp [hp]
    have hl' : ∀ p ∈ l.filter (fun p => !(decide (p.1 = k))), p.1 ∈ K := by
      intro p hp
      rcases List.mem_filter.mp hp with ⟨hpl, hpk⟩
      have := hl p hpl
      simp at hpk
      simpa [hpk] using this
    have ihl := ih (l.filter (fun p => !(decide (p.1 = k)))) (List.nodup_cons.mp hK).2 hl'
    calc ((l.filter (fun p => p.1 = k)).map Prod.snd).sum
          + (K.map (fun k2 => ((l.filter (fun p => p.1 = k2)).map Prod.snd).sum)).sum
        = ((l.filter (fun p => p.1 = k)).map Prod.snd).sum
          + (K.map (fun k2 => (((l.filter (fun p => !(decide (p.1 = k)))).filter
              (fun p => p.1 = k2)).map Prod.snd).sum)).sum := by
          congr 1
          apply congrArg
          apply List.map_congr_left
          intro k2 hk2
          rw [hcongr k2 hk2]
      _ = ((l.filter (fun p => p.1 = k)).map Prod.snd).sum
          + ((l.filter (fun p => !(decide (p.1 = k)))).map Prod.snd).sum := by rw [ihl]
      _ = (l.map Prod.snd).sum := hsplit

lemma analyze_data_ok (o : List String → List String) (data : List Row)
    (hne : data.isEmpty = false) (as : List ℚ) (rs ps : List String)
    (has : mapE amountOf data = Except.ok as)
    (hrs : mapE (fun item => pyGet item "Region") data = Except.ok rs)
    (hps : mapE (fun item => pyGet item "Product") data = Except.ok ps) :
    analyze_data o data = Except.ok (some
      { total_sales := as.sum,
        average_sale := as.sum / (data.length : ℚ),
        sales_by_region := (o rs).map (fun region =>
          (region, (((rs.zip as).filter (fun p => p.1 = region)).map Prod.snd).sum)),
        sales_by_product := (o ps).map (fun product =>
          (product, (((ps.zip as).filter (fun p => p.1 = product)).map Prod.snd).sum)),
        record_count := data.length }) := by
  simp [analyze_data, hne, has, hrs, hps]

lemma analyze_data_ok_some_inv (o : List String → List String) (data : List Row)
    (A : Analysis) (h : analyze_data o data = Except.ok (some A)) :
    data.isEmpty = false ∧ ∃ as rs ps,
      mapE amountOf data = Except.ok as ∧
      mapE (fun item => pyGet item "Region") data = Except.ok rs ∧
      mapE (fun item => pyGet item "Product") data = Except.ok ps ∧
      A = { total_sales := as.sum,
            average_sale := as.sum / (data.length : ℚ),
            sales_by_region := (o rs).map (fun region =>
              (region, (((rs.zip as).filter (fun p => p.1 = region)).map Prod.snd).sum)),
            sales_by_product := (o ps).map (fun product =>
              (product, (((ps.zip as).filter (fun p => p.1 = product)).map Prod.snd).sum)),
            record_count := data.length } := by
  by_cases hne : data.isEmpty
  · simp [analyze_data, hne] at h
  · rw [Bool.not_eq_true] at hne
    refine ⟨hne, ?_⟩
    cases has : mapE amountOf data with
    | error e => simp [analyze_data, hne, has] at h
    | ok as =>
      cases hrs : mapE (fun item => pyGet item "Region") data with
      | error e => simp [analyze_data, hne, has, hrs] at h
      | ok rs =>
        cases hps : mapE (fun item => pyGet item "Product") data with
        | error e => simp [analyze_data, hne, has, hrs, hps] at h
        | ok ps =>
          refine ⟨as, rs, ps, rfl, rfl, rfl, ?_⟩
          rw [analyze_data_ok o data hne as rs ps has hrs hps] at h
          simpa using h.symm

/-! The claims. -/

/-- Claim C1: for every non-empty record list that analyze_data accepts,
the values of sales_by_region sum to total_sales, and so do the values of
sales_by_product, for every possible set-enumeration order (amounts are
modelled as exact rationals, which is the claim read modulo floating-point
rounding). -/
theorem analyze_data_bucket_sums_eq_total (o : List String → List String)
    (ho : ∀ l, List.Perm (o l) l.dedup) (data : List Row) (A : Analysis)
    (hd : data ≠ []) (h : analyze_data o data = Except.ok (some A)) :
    (A.sales_by_region.map Prod.snd).sum = A.total_sales ∧
    (A.sales_by_product.map Prod.snd).sum = A.total_sales := by
  clear hd
  obtain ⟨hne2, as, rs, ps, has, hrs, hps, hA⟩ := analyze_data_ok_some_inv o data A h
  subst hA
  have las := mapE_ok_length has
  have lrs := mapE_ok_length hrs
  have lps := mapE_ok_length hps
  constructor
  · rw [List.map_map]
    have hperm := (ho rs).map
      (fun region => (((rs.zip as).filter (fun p => p.1 = region)).map Prod.snd).sum)
    calc ((o rs).map (Prod.snd ∘ fun region =>
            (region, (((rs.zip as).filter (fun p => p.1 = region)).map Prod.snd).sum))).sum
        = ((o rs).map (fun region =>
            (((rs.zip as).filter (fun p => p.1 = region)).map Prod.snd).sum)).sum := rfl
      _ = (rs.dedup.map (fun region =>
            (((rs.zip as).filter (fun p => p.1 = region)).map Prod.snd).sum)).sum :=
            hperm.sum_eq
      _ = ((rs.zip as).map Prod.snd).sum :=
            sum_buckets rs.dedup (rs.zip as) rs.nodup_dedup
              (fun p hp => List.mem_dedup.mpr (List.of_mem_zip hp).1)
      _ = as.sum := by rw [List.map_snd_zip rs as (by rw [las, lrs])]
  · rw [List.map_map]
    have hperm := (ho ps).map
      (fun product => (((ps.zip as).filter (fun p => p.1 = product)).map Prod.snd).sum)
    calc ((o ps).map (Prod.snd ∘ fun product =>
            (product, (((ps.zip as).filter (fun p => p.1 = product)).map Prod.snd).sum))).sum
        = ((o ps).map (fun product =>
            (((ps.zip as).filter (fun p => p.1 = product)).map Prod.snd).sum)).sum := rfl
      _ = (ps.dedup.map (fun product =>
            (((ps.zip as).filter (fun p => p.1 = product)).map Prod.snd).sum)).sum :=
            hperm.sum_eq
      _ = ((ps.zip as).map Prod.snd).sum :=
            sum_buckets ps.dedup (ps.zip as) ps.nodup_dedup
              (fun p hp => List.mem_dedup.mpr (List.of_mem_zip hp).1)
      _ = as.sum := by rw [List.map_snd_zip ps as (by rw [las, lps])]

/-- Witness for C1 at the worked example of the spec. -/
theorem analyze_data_bucket_sums_eq_total_witness :
    (exampleAnalysis.sales_by_region.map Prod.snd).sum = exampleAnalysis.total_sales ∧
    (exampleAnalysis.sales_by_product.map Prod.snd).sum = exampleAnalysis.total_sales :=
  analyze_data_bucket_sums_eq_total setEnumFirstSeen (fun l => List.Perm.refl l.dedup)
    exampleData exampleAnalysis (by decide) (by with_unfolding_all rfl)

/-- Claim C2: for every non-empty record list whose amounts parse,
analyze_data computes total_sales as the sum of the Amount values,
record_count as the number of records, and average_sale as exactly
total_sales divided by record_count (exact in the rationals, which is the
claim read subject to floating-point rounding). -/
theorem analyze_data_total_average (o : List String → List String)
    (data : List Row) (as : List ℚ) (A : Analysis) (hd : data ≠ [])
    (has : mapE amountOf data = Except.ok as)
    (h : analyze_data o data = Except.ok (some A)) :
    A.total_sales = as.sum ∧ A.record_count = data.length ∧
    A.average_sale = A.total_sales / (A.record_count : ℚ) := by
  clear hd
  obtain ⟨hne2, as2, rs, ps, has2, hrs, hps, hA⟩ := analyze_data_ok_some_inv o data A h
  rw [has] at has2
  injection has2 with has2
  subst has2
  subst hA
  exact ⟨rfl, rfl, rfl⟩

/-- Witness for C2 at the worked example of the spec. -/
theorem analyze_data_total_average_witness :
    exampleAnalysis.total_sales = ([100, 50] : List ℚ).sum ∧
    exampleAnalysis.record_count = exampleData.length ∧
    exampleAnalysis.average_sale
      = exampleAnalysis.total_sales / (exampleAnalysis.record_count : ℚ) :=
  analyze_data_total_average setEnumFirstSeen exampleData [100, 50] exampleAnalysis
    (by decide) (by with_unfolding_all rfl) (by with_unfolding_all rfl)

/-- Counterexample to C3: on the same input file, with the same clock
reading (so the timestamp line is equal and drops out of the comparison),
two runs whose set-enumeration orders differ — both orders being
permutations of the distinct regions and products, as CPython set
iteration may produce in two processes — write different output documents:
the region and product blocks appear in different orders. -/
theorem set_order_changes_output :
    List.Perm (setEnumReversed ["East", "West"]) (["East", "West"].dedup) ∧
    List.Perm (setEnumReversed ["Widget", "Gadget"]) (["Widget", "Gadget"].dedup) ∧
    (Task2.main setEnumFirstSeen "NOW" exampleFS).output
      ≠ (Task2.main setEnumReversed "NOW" exampleFS).output := by
  refine ⟨by decide, by decide, ?_⟩
  with_unfolding_all decide

/-- Claim C3 as amended: the program is deterministic in everything except
the set-enumeration order: two runs with the same set-enumeration order and
the same clock reading on identical input files produce identical printed
output and an identical output document.  Across processes CPython does not
fix the set order (hash randomisation), so byte-identity of the region and
product blocks is not guaranteed, as the counterexample shows. -/
theorem main_deterministic_given_set_order (o : List String → List String)
    (now : String) (fs1 fs2 : FileSys)
    (h : fs1.read "sales_data.csv" = fs2.read "sales_data.csv") :
    Task2.main o now fs1 = Task2.main o now fs2 := by
  unfold Task2.main read_data
  rw [h]

/-- Witness for the amended C3. -/
theorem main_deterministic_given_set_order_witness :
    Task2.main setEnumFirstSeen "NOW" exampleFS = Task2.main setEnumFirstSeen "NOW" exampleFS :=
  main_deterministic_given_set_order setEnumFirstSeen "NOW" exampleFS exampleFS rfl

/-- Counterexample to C4: on a file holding only the header line, the run
prints nothing beyond the progress message — no diagnostic at all — because
main returns at its falsy-data guard (line 157) before analyze_data is ever
called; no output file is produced. -/
theorem header_only_run_prints_no_diagnostic :
    Task2.main setEnumFirstSeen "NOW" headerOnlyFS =
      { printed := ["Reading data..."], output := none, uncaught := none } := rfl

/-- Claim C4 as amended: on a file with a header and zero data rows,
read_data returns an empty record list, main returns early at its
`if not data` guard without printing any diagnostic, and no output file is
produced; analyze_data itself would return None (the EmptyInput condition)
on an empty record list, but it is never reached in the run. -/
theorem header_only_silent_early_return (o : List String → List String)
    (now : String) (fs : FileSys) (header : String)
    (h : fs.read "sales_data.csv" = some (Except.ok [header])) :
    read_data fs "sales_data.csv" = ([], some []) ∧
    Task2.main o now fs =
      { printed := ["Reading data..."], output := none, uncaught := none } ∧
    analyze_data o [] = Except.ok none := by
  refine ⟨?_, ?_, rfl⟩
  · unfold read_data
    rw [h]
    rfl
  · unfold Task2.main read_data
    rw [h]
    rfl

/-- Witness for the amended C4. -/
theorem header_only_silent_early_return_witness :
    read_data headerOnlyFS "sales_data.csv" = ([], some []) ∧
    Task2.main setEnumFirstSeen "NOW" headerOnlyFS =
      { printed := ["Reading data..."], output := none, uncaught := none } ∧
    analyze_data setEnumFirstSeen [] = Except.ok none :=
  header_only_silent_early_return setEnumFirstSeen "NOW" headerOnlyFS
    "Date,Region,Product,Amount" rfl

/-- Claim C5: when the input file does not exist, read_data catches
FileNotFoundError and returns None after printing its two diagnostic
lines, and main performs no further step: nothing else is printed (no
analysis, no rendering), no output file is written, and no exception
escapes. -/
theorem missing_file_not_found_diagnostics (o : List String → List String)
    (now : String) (fs : FileSys) (h : fs.read "sales_data.csv" = none) :
    read_data fs "sales_data.csv" =
      (["Error: The file \x27sales_data.csv\x27 was not found.",
        "Please make sure the file exists in the same directory as the script."], none) ∧
    Task2.main o now fs =
      { printed := ["Reading data...",
                    "Error: The file \x27sales_data.csv\x27 was not found.",
                    "Please make sure the file exists in the same directory as the script."],
        output := none, uncaught := none } := by
  constructor
  · unfold read_data
    rw [h]
    rfl
  · unfold Task2.main read_data
    rw [h]
    rfl

/-- Witness for C5. -/
theorem missing_file_not_found_diagnostics_witness :
    read_data missingFS "sales_data.csv" =
      (["Error: The file \x27sales_data.csv\x27 was not found.",
        "Please make sure the file exists in the same directory as the script."], none) ∧
    Task2.main setEnumFirstSeen "NOW" missingFS =
      { printed := ["Reading data...",
                    "Error: The file \x27sales_data.csv\x27 was not found.",
                    "Please make sure the file exists in the same directory as the script."],
        output := none, uncaught := none } :=
  missing_file_not_found_diagnostics setEnumFirstSeen "NOW" missingFS rfl

/-- Counterexample to C6: on a file whose single row carries the
unparseable Amount text abc, the load does not fail and prints no
diagnostic — read_data returns the row with the raw text — and the failure
instead surfaces in analyze_data, where float() raises a ValueError that
nothing catches: the run dies with a traceback, not a printed diagnostic.
No output file is produced. -/
theorem malformed_amount_load_succeeds :
    read_data badAmountFS "sales_data.csv" =
      ([], some [[("Date", "2024-01-03"), ("Region", "East"), ("Product", "Widget"),
                  ("Amount", "abc")]]) ∧
    Task2.main setEnumFirstSeen "NOW" badAmountFS =
      { printed := ["Reading data...", "Analyzing data..."], output := none,
        uncaught := some "ValueError: could not convert string to float: abc" } :=
  ⟨rfl, rfl⟩

/-- Claim C6 as amended: a malformed Amount is fatal to the whole run with
no partial results and no output file, but not in the claimed way: the load
succeeds and returns the rows unchanged, and the run is then killed by the
uncaught ValueError that float() raises inside analyze_data (line 53); the
program prints only its progress messages, no diagnostic of its own. -/
theorem malformed_amount_uncaught_value_error (o : List String → List String)
    (now : String) (fs : FileSys) (lines : List String) (e : String)
    (hread : fs.read "sales_data.csv" = some (Except.ok lines))
    (hne : (dictReader lines).isEmpty = false)
    (herr : mapE amountOf (dictReader lines) = Except.error e) :
    read_data fs "sales_data.csv" = ([], some (dictReader lines)) ∧
    Task2.main o now fs =
      { printed := ["Reading data...", "Analyzing data..."], output := none,
        uncaught := some e } := by
  constructor
  · unfold read_data
    rw [hread]
  · unfold Task2.main read_data
    rw [hread]
    simp [hne, analyze_data, herr]

/-- Witness for the amended C6. -/
theorem malformed_amount_uncaught_value_error_witness :
    read_data badAmountFS "sales_data.csv" =
      ([], some (dictReader ["Date,Region,Product,Amount", "2024-01-03,East,Widget,abc"])) ∧
    Task2.main setEnumFirstSeen "NOW" badAmountFS =
      { printed := ["Reading data...", "Analyzing data..."], output := none,
        uncaught := some "ValueError: could not convert string to float: abc" } :=
  malformed_amount_uncaught_value_error setEnumFirstSeen "NOW" badAmountFS
    ["Date,Region,Product,Amount", "2024-01-03,East,Widget,abc"]
    "ValueError: could not convert string to float: abc" rfl rfl rfl

/-- Claim C7: the Sample Data table renders one row per record for at most
the first ten records, in original input order: the rendered row list has
length min 10 (number of records), and its i-th row is exactly the cells
rendered from the i-th input record.  (In reportCells these rows follow
the bordered header cells Date, Region, Product, Amount.)  At fifteen
records this gives exactly ten rows, the first ten in file order. -/
theorem sample_table_first_ten_rows (data : List Row) (rs : List (List String))
    (h : sampleRows data = Except.ok rs) :
    rs.length = min 10 data.length ∧
    ∀ (i : ℕ) (h1 : i < rs.length) (h2 : i < data.length),
      rowCells (data.get ⟨i, h2⟩) = Except.ok (rs.get ⟨i, h1⟩) := by
  have hlen := mapE_ok_length h
  constructor
  · rw [hlen, List.length_take]
  · intro i h1 h2
    have h1t : i < (data.take 10).length := by rw [← hlen]; exact h1
    have hget := mapE_ok_get h i h1t h1
    rw [← hget]
    congr 1
    simp [List.get_eq_getElem, List.getElem_take]

/-- Witness for C7 at fifteen records: exactly ten rendered rows. -/
theorem sample_table_first_ten_rows_witness :
    tenRenderedRows.length = min 10 fifteenRecords.length ∧ tenRenderedRows.length = 10 :=
  ⟨(sample_table_first_ten_rows fifteenRecords tenRenderedRows
      (by with_unfolding_all rfl)).1,
   by decide⟩

/-- Claim C8: if generate_report is given an empty record list or no
analysis (the NothingToRender condition), it prints its refusal message,
returns False and writes no output file, instead of producing an empty
document; no exception escapes. -/
theorem generate_report_nothing_to_render (data : List Row)
    (analysis : Option Analysis) (now : String)
    (h : data = [] ∨ analysis = none) :
    generate_report data analysis now =
      Except.ok (["Cannot generate report without valid data and analysis."],
                 false, none) := by
  rcases h with h | h
  · subst h
    cases analysis <;> rfl
  · subst h
    cases data <;> rfl

/-- Witness for C8 with an empty record list and no analysis. -/
theorem generate_report_nothing_to_render_witness :
    generate_report [] none "NOW" =
      Except.ok (["Cannot generate report without valid data and analysis."],
                 false, none) :=
  generate_report_nothing_to_render [] none "NOW" (Or.inl rfl)

/-- Claim C9: analyze_data does not mutate its input.  In the embedding
with the record store made explicit, every branch of analyze_data_st
returns the store it was given, and its result component is exactly
analyze_data of that store: the record list and every record dict in it
are unchanged by the call. -/
theorem analyze_data_preserves_store (o : List String → List String)
    (store : List Row) :
    analyze_data_st o store = (analyze_data o store, store) := by
  by_cases hne : store.isEmpty
  · simp [analyze_data_st, analyze_data, hne]
  · rw [Bool.not_eq_true] at hne
    cases has : mapE amountOf store with
    | error e => simp [analyze_data_st, analyze_data, hne, has]
    | ok as =>
      cases hrs : mapE (fun item => pyGet item "Region") store with
      | error e => simp [analyze_data_st, analyze_data, hne, has, hrs]
      | ok rs =>
        cases hps : mapE (fun item => pyGet item "Product") store with
        | error e => simp [analyze_data_st, analyze_data, hne, has, hrs, hps]
        | ok ps =>
          rw [analyze_data_ok o store hne as rs ps has hrs hps]
          simp [analyze_data_st, hne, has, hrs, hps]

/-- Claim C10: read_data never lets an exception escape: for every file
system and filename it either returns the parsed row dicts of the file in
input order (printing nothing), or — on a missing file or any other
exception during open and read — prints a diagnostic and returns None. -/
theorem read_data_never_raises (fs : FileSys) (filename : String) :
    (∃ lines, fs.read filename = some (Except.ok lines) ∧
       read_data fs filename = ([], some (dictReader lines))) ∨
    ((read_data fs filename).2 = none ∧ (read_data fs filename).1 ≠ []) := by
  cases h : fs.read filename with
  | none =>
    right
    unfold read_data
    rw [h]
    simp
  | some r =>
    cases r with
    | error e =>
      right
      unfold read_data
      rw [h]
      simp
    | ok lines =>
      left
      refine ⟨lines, rfl, ?_⟩
      unfold read_data
      rw [h]
